import Mathlib

/-!
# Elevator hardware abstraction layer (`libelev/src/main.c`)

A shallow embedding of the elevator driver wrapper.  The C functions
`elev_*` are translated into state-passing Lean functions over an explicit
model of the I/O primitive layer (`io.h`) and of the wiring constants
(`channels.h`).  A failed `assert` aborts the process: it is modelled by the
`Run.halted` outcome, which carries the I/O state at the moment of the abort.
-/

namespace Elev

/-! ## The I/O primitive layer -/

/-- One call into the I/O primitive layer, as recorded in the log. -/
inductive IoOp where
  | set_bit (channel : Int)
  | clear_bit (channel : Int)
  | write_analog (channel : Int) (value : Int)
  | read_bit (channel : Int)
  deriving DecidableEq, Repr

/-- State of the I/O primitive layer: the digital output lines, the analog
output lines, the values the digital input lines currently present to
`io_read_bit`, and the chronological log of the primitive calls made. -/
structure IoState where
  bits : Int → Bool
  analog : Int → Int
  inputs : Int → Int
  log : List IoOp

/-- Modelled from the spec: `io_set_bit` of `io.h`, whose body is not part of
the sources; it sets a single digital output channel. -/
def io_set_bit (channel : Int) (s : IoState) : IoState :=
  { s with
    bits := fun c => if c = channel then true else s.bits c
    log := s.log ++ [IoOp.set_bit channel] }

/-- Modelled from the spec: `io_clear_bit` of `io.h`, whose body is not part
of the sources; it clears a single digital output channel. -/
def io_clear_bit (channel : Int) (s : IoState) : IoState :=
  { s with
    bits := fun c => if c = channel then false else s.bits c
    log := s.log ++ [IoOp.clear_bit channel] }

/-- Modelled from the spec: `io_write_analog` of `io.h`, whose body is not
part of the sources; it writes an analog output value. -/
def io_write_analog (channel : Int) (value : Int) (s : IoState) : IoState :=
  { s with
    analog := fun c => if c = channel then value else s.analog c
    log := s.log ++ [IoOp.write_analog channel value] }

/-- Modelled from the spec: `io_read_bit` of `io.h`, whose body is not part of
the sources; it reads a single digital input channel and writes no output. -/
def io_read_bit (channel : Int) (s : IoState) : Int × IoState :=
  (s.inputs channel, { s with log := s.log ++ [IoOp.read_bit channel] })

/-! ## Wiring constants -/

/-- The channel identifiers of `channels.h`.  The header is not part of the
sources, so the constants are parameters of the development. -/
structure Channels where
  LIGHT_UP1 : Int
  LIGHT_UP2 : Int
  LIGHT_UP3 : Int
  LIGHT_UP4 : Int
  LIGHT_DOWN1 : Int
  LIGHT_DOWN2 : Int
  LIGHT_DOWN3 : Int
  LIGHT_DOWN4 : Int
  LIGHT_COMMAND1 : Int
  LIGHT_COMMAND2 : Int
  LIGHT_COMMAND3 : Int
  LIGHT_COMMAND4 : Int
  BUTTON_UP1 : Int
  BUTTON_UP2 : Int
  BUTTON_UP3 : Int
  BUTTON_UP4 : Int
  BUTTON_DOWN1 : Int
  BUTTON_DOWN2 : Int
  BUTTON_DOWN3 : Int
  BUTTON_DOWN4 : Int
  BUTTON_COMMAND1 : Int
  BUTTON_COMMAND2 : Int
  BUTTON_COMMAND3 : Int
  BUTTON_COMMAND4 : Int
  LIGHT_STOP : Int
  LIGHT_DOOR_OPEN : Int
  LIGHT_FLOOR_IND1 : Int
  LIGHT_FLOOR_IND2 : Int
  SENSOR_FLOOR1 : Int
  SENSOR_FLOOR2 : Int
  SENSOR_FLOOR3 : Int
  SENSOR_FLOOR4 : Int
  MOTOR : Int
  MOTORDIR : Int
  STOP : Int
  OBSTRUCTION : Int

/-- Source: `#define N_FLOORS 4`. -/
def N_FLOORS : Int := 4

/-- Source: `#define N_BUTTONS 3`. -/
def N_BUTTONS : Int := 3

/-- Source: `#define MOTOR_SPEED 2800`. -/
def MOTOR_SPEED : Int := 2800

/-- Source: `DIRN_DOWN = -1` of `elev_motor_direction_t`. -/
def DIRN_DOWN : Int := -1

/-- Source: `DIRN_STOP = 0` of `elev_motor_direction_t`. -/
def DIRN_STOP : Int := 0

/-- Source: `DIRN_UP = 1` of `elev_motor_direction_t`. -/
def DIRN_UP : Int := 1

/-- Source: `static const int lamp_channel_matrix[N_FLOORS][N_BUTTONS]`. -/
def lamp_channel_matrix (c : Channels) : List (List Int) :=
  [ [c.LIGHT_UP1, c.LIGHT_DOWN1, c.LIGHT_COMMAND1],
    [c.LIGHT_UP2, c.LIGHT_DOWN2, c.LIGHT_COMMAND2],
    [c.LIGHT_UP3, c.LIGHT_DOWN3, c.LIGHT_COMMAND3],
    [c.LIGHT_UP4, c.LIGHT_DOWN4, c.LIGHT_COMMAND4] ]

/-- Source: `static const int button_channel_matrix[N_FLOORS][N_BUTTONS]`. -/
def button_channel_matrix (c : Channels) : List (List Int) :=
  [ [c.BUTTON_UP1, c.BUTTON_DOWN1, c.BUTTON_COMMAND1],
    [c.BUTTON_UP2, c.BUTTON_DOWN2, c.BUTTON_COMMAND2],
    [c.BUTTON_UP3, c.BUTTON_DOWN3, c.BUTTON_COMMAND3],
    [c.BUTTON_UP4, c.BUTTON_DOWN4, c.BUTTON_COMMAND4] ]

/-- The array access `m[floor][button]`.  Every access in the source is
guarded by the range assertions, so the default is never returned there. -/
def index2 (m : List (List Int)) (floor button : Int) : Int :=
  ((m.getD floor.toNat []).getD button.toNat 0)

/-! ## Outcomes -/

/-- Outcome of a call: either an `assert` failed and the process was aborted
in the given I/O state, or the call returned a value in the given state. -/
inductive Run (α : Type) where
  | halted (s : IoState) : Run α
  | done (a : α) (s : IoState) : Run α

/-- Sequencing of two calls: an abort in the first one is final. -/
def Run.andThen {α β : Type} (r : Run α) (k : α → IoState → Run β) : Run β :=
  match r with
  | Run.halted s => Run.halted s
  | Run.done a s => k a s

/-- The C statement `assert(cond);` followed by the rest of the body. -/
def assert {α : Type} (cond : Bool) (s : IoState) (rest : IoState → Run α) : Run α :=
  if cond then rest s else Run.halted s

/-- The loop `for (i = start; i < start + n; i++) body(i);` unrolled by the
number `n` of remaining iterations. -/
def forLoop (body : Int → IoState → Run Unit) : Nat → Int → IoState → Run Unit
  | 0, _, s => Run.done () s
  | n + 1, i, s => (body i s).andThen (fun _ s1 => forLoop body n (i + 1) s1)

/-! ## The exported functions -/

/-- Source: `void elev_set_motor_direction(int dirn)`. -/
def elev_set_motor_direction (c : Channels) (dirn : Int) (s : IoState) : Run Unit :=
  if dirn = 0 then
    Run.done () (io_write_analog c.MOTOR 0 s)
  else if dirn > 0 then
    Run.done () (io_write_analog c.MOTOR MOTOR_SPEED (io_clear_bit c.MOTORDIR s))
  else if dirn < 0 then
    Run.done () (io_write_analog c.MOTOR MOTOR_SPEED (io_set_bit c.MOTORDIR s))
  else
    Run.done () s

/-- Source: `void elev_set_button_lamp(int button, int floor, int value)`. -/
def elev_set_button_lamp (c : Channels) (button floor value : Int) (s : IoState) : Run Unit :=
  assert (decide (floor ≥ 0)) s fun s =>
  assert (decide (floor < N_FLOORS)) s fun s =>
  assert (decide (button ≥ 0)) s fun s =>
  assert (decide (button < N_BUTTONS)) s fun s =>
  if value ≠ 0 then
    Run.done () (io_set_bit (index2 (lamp_channel_matrix c) floor button) s)
  else
    Run.done () (io_clear_bit (index2 (lamp_channel_matrix c) floor button) s)

/-- Source: `void elev_set_floor_indicator(int floor)`.  The tests `floor & 0x02`
and `floor & 0x01` are C truth values of the bitwise conjunction. -/
def elev_set_floor_indicator (c : Channels) (floor : Int) (s : IoState) : Run Unit :=
  assert (decide (floor ≥ 0)) s fun s =>
  assert (decide (floor < N_FLOORS)) s fun s =>
  let s1 :=
    if Int.land floor 0x02 ≠ 0 then io_set_bit c.LIGHT_FLOOR_IND1 s
    else io_clear_bit c.LIGHT_FLOOR_IND1 s
  let s2 :=
    if Int.land floor 0x01 ≠ 0 then io_set_bit c.LIGHT_FLOOR_IND2 s1
    else io_clear_bit c.LIGHT_FLOOR_IND2 s1
  Run.done () s2

/-- Source: `void elev_set_door_open_lamp(int value)`. -/
def elev_set_door_open_lamp (c : Channels) (value : Int) (s : IoState) : Run Unit :=
  if value ≠ 0 then
    Run.done () (io_set_bit c.LIGHT_DOOR_OPEN s)
  else
    Run.done () (io_clear_bit c.LIGHT_DOOR_OPEN s)

/-- Source: `void elev_set_stop_lamp(int value)`. -/
def elev_set_stop_lamp (c : Channels) (value : Int) (s : IoState) : Run Unit :=
  if value ≠ 0 then
    Run.done () (io_set_bit c.LIGHT_STOP s)
  else
    Run.done () (io_clear_bit c.LIGHT_STOP s)

/-- Source: `void elev_init(void)`.  The body of `io_init` is not part of the sources:
it is a parameter, returning its status and the state it leaves behind. -/
def elev_init (c : Channels) (io_init : IoState → Int × IoState) (s : IoState) : Run Unit :=
  let init_success := (io_init s).1
  assert (decide (init_success ≠ 0)) (io_init s).2 fun s =>
  (forLoop (fun f s =>
      forLoop (fun b s => elev_set_button_lamp c b f 0 s) N_BUTTONS.toNat 0 s)
    N_FLOORS.toNat 0 s).andThen fun _ s =>
  (elev_set_stop_lamp c 0 s).andThen fun _ s =>
  (elev_set_door_open_lamp c 0 s).andThen fun _ s =>
  elev_set_floor_indicator c 0 s

/-- Source: `int elev_get_button_signal(int button, int floor)`. -/
def elev_get_button_signal (c : Channels) (button floor : Int) (s : IoState) : Run Int :=
  assert (decide (floor ≥ 0)) s fun s =>
  assert (decide (floor < N_FLOORS)) s fun s =>
  assert (decide (button ≥ 0)) s fun s =>
  assert (decide (button < N_BUTTONS)) s fun s =>
  let r := io_read_bit (index2 (button_channel_matrix c) floor button) s
  if r.1 ≠ 0 then Run.done 1 r.2 else Run.done 0 r.2

/-- Source: `int elev_get_floor_sensor_signal(void)`. -/
def elev_get_floor_sensor_signal (c : Channels) (s : IoState) : Run Int :=
  let r1 := io_read_bit c.SENSOR_FLOOR1 s
  if r1.1 ≠ 0 then Run.done 0 r1.2
  else
    let r2 := io_read_bit c.SENSOR_FLOOR2 r1.2
    if r2.1 ≠ 0 then Run.done 1 r2.2
    else
      let r3 := io_read_bit c.SENSOR_FLOOR3 r2.2
      if r3.1 ≠ 0 then Run.done 2 r3.2
      else
        let r4 := io_read_bit c.SENSOR_FLOOR4 r3.2
        if r4.1 ≠ 0 then Run.done 3 r4.2
        else Run.done (-1) r4.2

/-- Source: `int elev_get_stop_signal(void)`. -/
def elev_get_stop_signal (c : Channels) (s : IoState) : Run Int :=
  let r := io_read_bit c.STOP s
  Run.done r.1 r.2

/-- Source: `int elev_get_obstruction_signal(void)`. -/
def elev_get_obstruction_signal (c : Channels) (s : IoState) : Run Int :=
  let r := io_read_bit c.OBSTRUCTION s
  Run.done r.1 r.2

/-! ## Observations and concrete inputs -/

/-- The I/O state in which a call ended, whether it returned or was aborted. -/
def Run.state {α : Type} : Run α → IoState
  | Run.halted s => s
  | Run.done _ s => s

/-- The value a call returned, if it returned. -/
def Run.value {α : Type} : Run α → Option α
  | Run.halted _ => none
  | Run.done a _ => some a

/-- Whether a call ended in an assertion failure. -/
def Run.isHalted {α : Type} : Run α → Bool
  | Run.halted _ => true
  | Run.done _ _ => false

/-- The floor sensor channels in the order in which
`elev_get_floor_sensor_signal` polls them. -/
def sensor_channels (c : Channels) : List Int :=
  [c.SENSOR_FLOOR1, c.SENSOR_FLOOR2, c.SENSOR_FLOOR3, c.SENSOR_FLOOR4]

/-- Whether the `k`-th floor sensor reads active in state `s`. -/
def sensor_active (c : Channels) (s : IoState) (k : Nat) : Bool :=
  decide (s.inputs ((sensor_channels c).getD k 0) ≠ 0)

/-- The sixteen lamp and indicator channels that `elev_init` drives, in the
order of its calls. -/
def init_channels (c : Channels) : List Int :=
  [ c.LIGHT_UP1, c.LIGHT_DOWN1, c.LIGHT_COMMAND1,
    c.LIGHT_UP2, c.LIGHT_DOWN2, c.LIGHT_COMMAND2,
    c.LIGHT_UP3, c.LIGHT_DOWN3, c.LIGHT_COMMAND3,
    c.LIGHT_UP4, c.LIGHT_DOWN4, c.LIGHT_COMMAND4,
    c.LIGHT_STOP, c.LIGHT_DOOR_OPEN, c.LIGHT_FLOOR_IND1, c.LIGHT_FLOOR_IND2 ]

/-- Clearing a list of channels one after the other. -/
def clearAll (chs : List Int) (s : IoState) : IoState :=
  chs.foldl (fun acc ch => io_clear_bit ch acc) s

/-- A concrete wiring with pairwise distinct channel identifiers. -/
def wiring : Channels :=
  { LIGHT_UP1 := 1, LIGHT_UP2 := 2, LIGHT_UP3 := 3, LIGHT_UP4 := 4,
    LIGHT_DOWN1 := 5, LIGHT_DOWN2 := 6, LIGHT_DOWN3 := 7, LIGHT_DOWN4 := 8,
    LIGHT_COMMAND1 := 9, LIGHT_COMMAND2 := 10, LIGHT_COMMAND3 := 11,
    LIGHT_COMMAND4 := 12,
    BUTTON_UP1 := 13, BUTTON_UP2 := 14, BUTTON_UP3 := 15, BUTTON_UP4 := 16,
    BUTTON_DOWN1 := 17, BUTTON_DOWN2 := 18, BUTTON_DOWN3 := 19, BUTTON_DOWN4 := 20,
    BUTTON_COMMAND1 := 21, BUTTON_COMMAND2 := 22, BUTTON_COMMAND3 := 23,
    BUTTON_COMMAND4 := 24,
    LIGHT_STOP := 25, LIGHT_DOOR_OPEN := 26,
    LIGHT_FLOOR_IND1 := 27, LIGHT_FLOOR_IND2 := 28,
    SENSOR_FLOOR1 := 29, SENSOR_FLOOR2 := 30, SENSOR_FLOOR3 := 31,
    SENSOR_FLOOR4 := 32,
    MOTOR := 33, MOTORDIR := 34, STOP := 35, OBSTRUCTION := 36 }

/-- A concrete state: every output off, the input channels listed in `active`
reading 1 and all others reading 0, nothing logged yet. -/
def idle (active : List Int) : IoState :=
  { bits := fun _ => false
    analog := fun _ => 0
    inputs := fun ch => if ch ∈ active then 1 else 0
    log := [] }

/-- A concrete state: every digital output on, the motor running, no input
active, nothing logged yet. -/
def allOn : IoState :=
  { bits := fun _ => true
    analog := fun _ => 2800
    inputs := fun _ => 0
    log := [] }

/-- A transport that comes up: `io_init` returns 1 and touches nothing. -/
def io_init_ok (s : IoState) : Int × IoState := (1, s)

/-- A transport that fails: `io_init` returns 0 and touches nothing. -/
def io_init_fail (s : IoState) : Int × IoState := (0, s)

/-- Two I/O states present the same lines: the same digital outputs, the same
analog outputs and the same inputs.  The log is a record of the calls made,
not a line of the hardware, and is not compared. -/
def sameLines (s1 s2 : IoState) : Prop :=
  s1.bits = s2.bits ∧ s1.analog = s2.analog ∧ s1.inputs = s2.inputs

/-- Performing an operation twice in a row. -/
def twice (op : IoState → Run Unit) (s : IoState) : Run Unit :=
  (op s).andThen fun _ s1 => op s1

/-- The operations appended to the log of `s` by a run that ended in `s1`. -/
def issued (s s1 : IoState) : List IoOp :=
  s1.log.drop s.log.length

/-! ## Basic facts about the primitives -/

@[simp] theorem io_set_bit_bits (ch x : Int) (s : IoState) :
    (io_set_bit ch s).bits x = if x = ch then true else s.bits x := rfl

@[simp] theorem io_clear_bit_bits (ch x : Int) (s : IoState) :
    (io_clear_bit ch s).bits x = if x = ch then false else s.bits x := rfl

@[simp] theorem io_set_bit_analog (ch : Int) (s : IoState) :
    (io_set_bit ch s).analog = s.analog := rfl

@[simp] theorem io_clear_bit_analog (ch : Int) (s : IoState) :
    (io_clear_bit ch s).analog = s.analog := rfl

@[simp] theorem io_set_bit_inputs (ch : Int) (s : IoState) :
    (io_set_bit ch s).inputs = s.inputs := rfl

@[simp] theorem io_clear_bit_inputs (ch : Int) (s : IoState) :
    (io_clear_bit ch s).inputs = s.inputs := rfl

@[simp] theorem io_set_bit_log (ch : Int) (s : IoState) :
    (io_set_bit ch s).log = s.log ++ [IoOp.set_bit ch] := rfl

@[simp] theorem io_clear_bit_log (ch : Int) (s : IoState) :
    (io_clear_bit ch s).log = s.log ++ [IoOp.clear_bit ch] := rfl

@[simp] theorem io_write_analog_bits (ch v : Int) (s : IoState) :
    (io_write_analog ch v s).bits = s.bits := rfl

@[simp] theorem io_write_analog_analog (ch v x : Int) (s : IoState) :
    (io_write_analog ch v s).analog x = if x = ch then v else s.analog x := rfl

@[simp] theorem io_write_analog_inputs (ch v : Int) (s : IoState) :
    (io_write_analog ch v s).inputs = s.inputs := rfl

@[simp] theorem io_write_analog_log (ch v : Int) (s : IoState) :
    (io_write_analog ch v s).log = s.log ++ [IoOp.write_analog ch v] := rfl

@[simp] theorem io_read_bit_value (ch : Int) (s : IoState) :
    (io_read_bit ch s).1 = s.inputs ch := rfl

@[simp] theorem io_read_bit_bits (ch : Int) (s : IoState) :
    (io_read_bit ch s).2.bits = s.bits := rfl

@[simp] theorem io_read_bit_analog (ch : Int) (s : IoState) :
    (io_read_bit ch s).2.analog = s.analog := rfl

@[simp] theorem io_read_bit_inputs (ch : Int) (s : IoState) :
    (io_read_bit ch s).2.inputs = s.inputs := rfl

@[simp] theorem io_read_bit_log (ch : Int) (s : IoState) :
    (io_read_bit ch s).2.log = s.log ++ [IoOp.read_bit ch] := rfl

/-- In range, the button lamp call does not abort: it is a single set or
clear of the mapped channel. -/
theorem elev_set_button_lamp_in_range (c : Channels) (button floor value : Int)
    (s : IoState) (hf0 : 0 ≤ floor) (hf4 : floor < 4) (hb0 : 0 ≤ button)
    (hb3 : button < 3) :
    elev_set_button_lamp c button floor value s =
      if value ≠ 0 then
        Run.done () (io_set_bit (index2 (lamp_channel_matrix c) floor button) s)
      else
        Run.done () (io_clear_bit (index2 (lamp_channel_matrix c) floor button) s) := by
  simp [elev_set_button_lamp, assert, N_FLOORS, N_BUTTONS, hf0, hf4, hb0, hb3]

/-- Out of range, the button lamp call aborts in the state it was entered in. -/
theorem elev_set_button_lamp_out_of_range (c : Channels) (button floor value : Int)
    (s : IoState) (h : floor < 0 ∨ 4 ≤ floor ∨ button < 0 ∨ 3 ≤ button) :
    elev_set_button_lamp c button floor value s = Run.halted s := by
  unfold elev_set_button_lamp assert N_FLOORS N_BUTTONS
  by_cases h1 : floor ≥ 0 <;> by_cases h2 : floor < 4 <;>
    by_cases h3 : button ≥ 0 <;> by_cases h4 : button < 3 <;>
    simp [h1, h2, h3, h4]
  omega

/-! ## Floor indicator -/

/-- C1: for every floor `f` with `0 ≤ f < 4` and every prior I/O state, the call
`elev_set_floor_indicator(f)` returns, and afterwards line `LIGHT_FLOOR_IND1` is
on exactly when `(f & 2) != 0` and line `LIGHT_FLOOR_IND2` is on exactly when
`(f & 1) != 0` (the two lines being two different channels). -/
theorem floor_indicator_encoding (c : Channels)
    (hAB : c.LIGHT_FLOOR_IND1 ≠ c.LIGHT_FLOOR_IND2) (f : Int) (h0 : 0 ≤ f)
    (h4 : f < 4) (s : IoState) :
    ∃ s1, elev_set_floor_indicator c f s = Run.done () s1 ∧
      (s1.bits c.LIGHT_FLOOR_IND1 = true ↔ Int.land f 2 ≠ 0) ∧
      (s1.bits c.LIGHT_FLOOR_IND2 = true ↔ Int.land f 1 ≠ 0) := by
  interval_cases f <;>
    simp [elev_set_floor_indicator, assert, N_FLOORS, hAB, Int.land]

/-- Witness of C1 at floor 2 with every output on beforehand. -/
theorem floor_indicator_encoding_witness :
    ∃ s1, elev_set_floor_indicator wiring 2 allOn = Run.done () s1 ∧
      (s1.bits wiring.LIGHT_FLOOR_IND1 = true ↔ Int.land 2 2 ≠ 0) ∧
      (s1.bits wiring.LIGHT_FLOOR_IND2 = true ↔ Int.land 2 1 ≠ 0) :=
  floor_indicator_encoding wiring (by decide) 2 (by decide) (by decide) allOn

/-! ## Motor -/

/-- C2: for every prior I/O state, `elev_set_motor_direction(DIRN_UP)` clears the
`MOTORDIR` bit and writes 2800 to `MOTOR`, `elev_set_motor_direction(DIRN_DOWN)`
sets the `MOTORDIR` bit and writes 2800 to `MOTOR`, and
`elev_set_motor_direction(DIRN_STOP)` writes 0 to `MOTOR`. -/
theorem motor_direction_contract (c : Channels) (s : IoState) :
    (∃ s1, elev_set_motor_direction c DIRN_UP s = Run.done () s1 ∧
      s1.log = s.log ++ [IoOp.clear_bit c.MOTORDIR, IoOp.write_analog c.MOTOR 2800] ∧
      s1.bits c.MOTORDIR = false ∧ s1.analog c.MOTOR = 2800) ∧
    (∃ s1, elev_set_motor_direction c DIRN_DOWN s = Run.done () s1 ∧
      s1.log = s.log ++ [IoOp.set_bit c.MOTORDIR, IoOp.write_analog c.MOTOR 2800] ∧
      s1.bits c.MOTORDIR = true ∧ s1.analog c.MOTOR = 2800) ∧
    (∃ s1, elev_set_motor_direction c DIRN_STOP s = Run.done () s1 ∧
      s1.log = s.log ++ [IoOp.write_analog c.MOTOR 0] ∧
      s1.analog c.MOTOR = 0) := by
  refine ⟨?_, ?_, ?_⟩ <;>
    simp [elev_set_motor_direction, DIRN_UP, DIRN_DOWN, DIRN_STOP, MOTOR_SPEED]

/-- Concrete run of C2: going down from the all-off state. -/
theorem motor_direction_contract_witness :
    (elev_set_motor_direction wiring (-1) (idle [])).state.log =
        [IoOp.set_bit 34, IoOp.write_analog 33 2800] ∧
      (elev_set_motor_direction wiring (-1) (idle [])).state.bits 34 = true ∧
      (elev_set_motor_direction wiring (-1) (idle [])).state.analog 33 = 2800 := by
  decide

/-! ## Button lamps -/

/-- C3: for every floor `f` in `[0,4)`, button type `t` in `[0,3)` and prior I/O
state, `elev_set_button_lamp(t, f, 1)` performs exactly one I/O operation, a
`set_bit` on `lamp_channel_matrix[f][t]`, and `elev_set_button_lamp(t, f, 0)`
performs exactly one I/O operation, a `clear_bit` on that channel; the bit of
every other channel and the analog outputs are unchanged. -/
theorem button_lamp_single_write (c : Channels) (f t : Int) (s : IoState)
    (hf0 : 0 ≤ f) (hf4 : f < 4) (ht0 : 0 ≤ t) (ht3 : t < 3) :
    (∃ s1, elev_set_button_lamp c t f 1 s = Run.done () s1 ∧
      s1.log = s.log ++ [IoOp.set_bit (index2 (lamp_channel_matrix c) f t)] ∧
      s1.bits (index2 (lamp_channel_matrix c) f t) = true ∧
      (∀ x, x ≠ index2 (lamp_channel_matrix c) f t → s1.bits x = s.bits x) ∧
      s1.analog = s.analog ∧ s1.inputs = s.inputs) ∧
    (∃ s1, elev_set_button_lamp c t f 0 s = Run.done () s1 ∧
      s1.log = s.log ++ [IoOp.clear_bit (index2 (lamp_channel_matrix c) f t)] ∧
      s1.bits (index2 (lamp_channel_matrix c) f t) = false ∧
      (∀ x, x ≠ index2 (lamp_channel_matrix c) f t → s1.bits x = s.bits x) ∧
      s1.analog = s.analog ∧ s1.inputs = s.inputs) := by
  constructor
  · refine ⟨_, elev_set_button_lamp_in_range c t f 1 s hf0 hf4 ht0 ht3 |>.trans (by simp; rfl), ?_⟩
    simp
    intro x hx
    simp [hx]
  · refine ⟨_, elev_set_button_lamp_in_range c t f 0 s hf0 hf4 ht0 ht3 |>.trans (by simp; rfl), ?_⟩
    simp
    intro x hx
    simp [hx]

/-- Witness of C3 at floor 2, button `BUTTON_CALL_DOWN`, whose lamp is
channel `LIGHT_DOWN3`. -/
theorem button_lamp_single_write_witness :
    (∃ s1, elev_set_button_lamp wiring 1 2 1 allOn = Run.done () s1 ∧
      s1.log = allOn.log ++ [IoOp.set_bit (index2 (lamp_channel_matrix wiring) 2 1)] ∧
      s1.bits (index2 (lamp_channel_matrix wiring) 2 1) = true ∧
      (∀ x, x ≠ index2 (lamp_channel_matrix wiring) 2 1 → s1.bits x = allOn.bits x) ∧
      s1.analog = allOn.analog ∧ s1.inputs = allOn.inputs) ∧
    (∃ s1, elev_set_button_lamp wiring 1 2 0 allOn = Run.done () s1 ∧
      s1.log = allOn.log ++ [IoOp.clear_bit (index2 (lamp_channel_matrix wiring) 2 1)] ∧
      s1.bits (index2 (lamp_channel_matrix wiring) 2 1) = false ∧
      (∀ x, x ≠ index2 (lamp_channel_matrix wiring) 2 1 → s1.bits x = allOn.bits x) ∧
      s1.analog = allOn.analog ∧ s1.inputs = allOn.inputs) :=
  button_lamp_single_write wiring 2 1 allOn (by decide) (by decide) (by decide) (by decide)

/-! ## Floor sensors -/

/-- C4: `elev_get_floor_sensor_signal` always returns; its value is the least
index `k` in `{0,1,2,3}` whose sensor channel (`SENSOR_FLOOR1..SENSOR_FLOOR4`, in
that order) reads active, and it is -1 exactly when none of the four reads
active.  In particular: only `SENSOR_FLOOR2` active gives 1, `SENSOR_FLOOR1`
and `SENSOR_FLOOR3` both active gives 0, none active gives -1.  The call writes
no output. -/
theorem floor_sensor_least_active (c : Channels) (s : IoState) :
    ∃ v s1, elev_get_floor_sensor_signal c s = Run.done v s1 ∧
      (∀ k : Nat, k < 4 →
        (v = (k : Int) ↔
          (sensor_active c s k = true ∧ ∀ j : Nat, j < k → sensor_active c s j = false))) ∧
      (v = -1 ↔ ∀ k : Nat, k < 4 → sensor_active c s k = false) ∧
      (s.inputs c.SENSOR_FLOOR1 = 0 → s.inputs c.SENSOR_FLOOR2 ≠ 0 →
        s.inputs c.SENSOR_FLOOR3 = 0 → s.inputs c.SENSOR_FLOOR4 = 0 → v = 1) ∧
      (s.inputs c.SENSOR_FLOOR1 ≠ 0 → s.inputs c.SENSOR_FLOOR3 ≠ 0 → v = 0) ∧
      (s.inputs c.SENSOR_FLOOR1 = 0 → s.inputs c.SENSOR_FLOOR2 = 0 →
        s.inputs c.SENSOR_FLOOR3 = 0 → s.inputs c.SENSOR_FLOOR4 = 0 → v = -1) ∧
      s1.bits = s.bits ∧ s1.analog = s.analog := by
  have hall : ∀ p : Nat → Prop, (∀ k : Nat, k < 4 → p k) ↔ (p 0 ∧ p 1 ∧ p 2 ∧ p 3) := by
    intro p
    constructor
    · intro h
      exact ⟨h 0 (by omega), h 1 (by omega), h 2 (by omega), h 3 (by omega)⟩
    · rintro ⟨h0, h1, h2, h3⟩ k hk
      interval_cases k <;> assumption
  have hlt1 : ∀ p : Nat → Prop, (∀ j : Nat, j < 1 → p j) ↔ p 0 := by
    intro p
    constructor
    · intro h
      exact h 0 (by omega)
    · intro h0 j hj
      interval_cases j
      exact h0
  have hlt2 : ∀ p : Nat → Prop, (∀ j : Nat, j < 2 → p j) ↔ (p 0 ∧ p 1) := by
    intro p
    constructor
    · intro h
      exact ⟨h 0 (by omega), h 1 (by omega)⟩
    · rintro ⟨h0, h1⟩ j hj
      interval_cases j <;> assumption
  have hlt3 : ∀ p : Nat → Prop, (∀ j : Nat, j < 3 → p j) ↔ (p 0 ∧ p 1 ∧ p 2) := by
    intro p
    constructor
    · intro h
      exact ⟨h 0 (by omega), h 1 (by omega), h 2 (by omega)⟩
    · rintro ⟨h0, h1, h2⟩ j hj
      interval_cases j <;> assumption
  simp only [hall, hlt1, hlt2, hlt3]
  by_cases a1 : s.inputs c.SENSOR_FLOOR1 = 0 <;>
    by_cases a2 : s.inputs c.SENSOR_FLOOR2 = 0 <;>
    by_cases a3 : s.inputs c.SENSOR_FLOOR3 = 0 <;>
    by_cases a4 : s.inputs c.SENSOR_FLOOR4 = 0 <;>
    simp [elev_get_floor_sensor_signal, sensor_active, sensor_channels, a1, a2, a3, a4] <;>
    exact ⟨_, _, ⟨rfl, rfl⟩, by simp⟩

/-- Concrete runs of C4: the three cases named by the claim, and the highest
sensor alone. -/
theorem floor_sensor_least_active_witness :
    (elev_get_floor_sensor_signal wiring (idle [wiring.SENSOR_FLOOR2])).value = some 1 ∧
    (elev_get_floor_sensor_signal wiring
      (idle [wiring.SENSOR_FLOOR1, wiring.SENSOR_FLOOR3])).value = some 0 ∧
    (elev_get_floor_sensor_signal wiring (idle [])).value = some (-1) ∧
    (elev_get_floor_sensor_signal wiring (idle [wiring.SENSOR_FLOOR4])).value = some 3 := by
  decide

/-! ## Initialisation -/

/-- After clearing a list of channels, a channel of the list is off and any
other channel keeps its bit. -/
theorem clearAll_bits (chs : List Int) (s : IoState) (x : Int) :
    (clearAll chs s).bits x = if x ∈ chs then false else s.bits x := by
  induction chs generalizing s with
  | nil => simp [clearAll]
  | cons ch rest ih =>
    have hstep : clearAll (ch :: rest) s = clearAll rest (io_clear_bit ch s) := rfl
    rw [hstep, ih]
    by_cases h1 : x ∈ rest <;> by_cases h2 : x = ch <;> simp [h1, h2]

/-- Clearing channels writes no analog output. -/
theorem clearAll_analog (chs : List Int) (s : IoState) :
    (clearAll chs s).analog = s.analog := by
  induction chs generalizing s with
  | nil => rfl
  | cons ch rest ih =>
    have hstep : clearAll (ch :: rest) s = clearAll rest (io_clear_bit ch s) := rfl
    rw [hstep, ih]
    rfl

/-- Clearing channels logs one `clear_bit` per channel, in order. -/
theorem clearAll_log (chs : List Int) (s : IoState) :
    (clearAll chs s).log = s.log ++ chs.map IoOp.clear_bit := by
  induction chs generalizing s with
  | nil => simp [clearAll]
  | cons ch rest ih =>
    have hstep : clearAll (ch :: rest) s = clearAll rest (io_clear_bit ch s) := rfl
    rw [hstep, ih]
    simp

/-- The body of `elev_init` after the assertion: sixteen clears, no abort. -/
theorem elev_init_body (c : Channels) (s : IoState) :
    ((forLoop (fun f s =>
        forLoop (fun b s => elev_set_button_lamp c b f 0 s) N_BUTTONS.toNat 0 s)
      N_FLOORS.toNat 0 s).andThen fun _ s =>
    (elev_set_stop_lamp c 0 s).andThen fun _ s =>
    (elev_set_door_open_lamp c 0 s).andThen fun _ s =>
    elev_set_floor_indicator c 0 s) = Run.done () (clearAll (init_channels c) s) :=
  rfl

/-- With a transport that comes up, `elev_init` returns after clearing the
sixteen lamp and indicator channels in the state `io_init` left. -/
theorem elev_init_success (c : Channels) (io_init : IoState → Int × IoState)
    (s : IoState) (h : (io_init s).1 ≠ 0) :
    elev_init c io_init s = Run.done () (clearAll (init_channels c) (io_init s).2) := by
  unfold elev_init
  simp only [assert, h, ne_eq, not_false_eq_true, decide_True, if_true]
  exact elev_init_body c (io_init s).2

/-- With a transport that fails, `elev_init` aborts in the state `io_init` left. -/
theorem elev_init_failure (c : Channels) (io_init : IoState → Int × IoState)
    (s : IoState) (h : (io_init s).1 = 0) :
    elev_init c io_init s = Run.halted (io_init s).2 := by
  unfold elev_init
  simp [assert, h]

/-- Every entry of the lamp table is one of the channels `elev_init` drives. -/
theorem lamp_channel_mem_init_channels (c : Channels) (f t : Int)
    (hf0 : 0 ≤ f) (hf4 : f < 4) (ht0 : 0 ≤ t) (ht3 : t < 3) :
    index2 (lamp_channel_matrix c) f t ∈ init_channels c := by
  interval_cases f <;> interval_cases t <;>
    simp [index2, lamp_channel_matrix, init_channels]

/-- C5: when `io_init` succeeds, for every prior I/O state, `elev_init` returns
and afterwards all 12 channels of `lamp_channel_matrix`, `LIGHT_STOP` and
`LIGHT_DOOR_OPEN` are off and the floor indicator lines `LIGHT_FLOOR_IND1`,
`LIGHT_FLOOR_IND2` are both off (the encoding of floor 0); the values of these
16 channels are the same after any other successful initialisation, whatever
the prior state. -/
theorem init_drives_outputs_idle (c : Channels) (io_init : IoState → Int × IoState)
    (s : IoState) (h : (io_init s).1 ≠ 0) :
    ∃ s1, elev_init c io_init s = Run.done () s1 ∧
      (∀ f t : Int, 0 ≤ f → f < 4 → 0 ≤ t → t < 3 →
        s1.bits (index2 (lamp_channel_matrix c) f t) = false) ∧
      s1.bits c.LIGHT_STOP = false ∧
      s1.bits c.LIGHT_DOOR_OPEN = false ∧
      s1.bits c.LIGHT_FLOOR_IND1 = false ∧
      s1.bits c.LIGHT_FLOOR_IND2 = false ∧
      (∀ (io_init2 : IoState → Int × IoState) (s2 : IoState), (io_init2 s2).1 ≠ 0 →
        ∃ s3, elev_init c io_init2 s2 = Run.done () s3 ∧
          ∀ x, x ∈ init_channels c → s3.bits x = s1.bits x) := by
  refine ⟨_, elev_init_success c io_init s h, ?_, ?_, ?_, ?_, ?_, ?_⟩
  · intro f t hf0 hf4 ht0 ht3
    rw [clearAll_bits]
    simp [lamp_channel_mem_init_channels c f t hf0 hf4 ht0 ht3]
  · rw [clearAll_bits]
    simp [init_channels]
  · rw [clearAll_bits]
    simp [init_channels]
  · rw [clearAll_bits]
    simp [init_channels]
  · rw [clearAll_bits]
    simp [init_channels]
  · intro io_init2 s2 h2
    refine ⟨_, elev_init_success c io_init2 s2 h2, ?_⟩
    intro x hx
    rw [clearAll_bits, clearAll_bits]
    simp [hx]

/-- Witness of C5: initialisation from the state with every output on. -/
theorem init_drives_outputs_idle_witness :
    ∃ s1, elev_init wiring io_init_ok allOn = Run.done () s1 ∧
      (∀ f t : Int, 0 ≤ f → f < 4 → 0 ≤ t → t < 3 →
        s1.bits (index2 (lamp_channel_matrix wiring) f t) = false) ∧
      s1.bits wiring.LIGHT_STOP = false ∧
      s1.bits wiring.LIGHT_DOOR_OPEN = false ∧
      s1.bits wiring.LIGHT_FLOOR_IND1 = false ∧
      s1.bits wiring.LIGHT_FLOOR_IND2 = false ∧
      (∀ (io_init2 : IoState → Int × IoState) (s2 : IoState), (io_init2 s2).1 ≠ 0 →
        ∃ s3, elev_init wiring io_init2 s2 = Run.done () s3 ∧
          ∀ x, x ∈ init_channels wiring → s3.bits x = s1.bits x) :=
  init_drives_outputs_idle wiring io_init_ok allOn (by decide)

/-- C6: when `io_init` returns 0, `elev_init` halts with an assertion failure in
exactly the state `io_init` left (no `set_bit`, `clear_bit` or analog write has
been performed), and `elev_init` halts only if `io_init` returned 0. -/
theorem init_halts_iff_transport_fails (c : Channels)
    (io_init : IoState → Int × IoState) (s : IoState) :
    ((io_init s).1 = 0 → elev_init c io_init s = Run.halted (io_init s).2) ∧
    (∀ s1, elev_init c io_init s = Run.halted s1 →
      (io_init s).1 = 0 ∧ s1 = (io_init s).2) := by
  constructor
  · exact elev_init_failure c io_init s
  · intro s1 hs1
    by_cases h : (io_init s).1 = 0
    · rw [elev_init_failure c io_init s h] at hs1
      cases hs1
      exact ⟨h, rfl⟩
    · rw [elev_init_success c io_init s h] at hs1
      cases hs1

/-- Concrete runs of C6: a failing transport leaves every output and the log
as they were; a working one does not halt. -/
theorem init_halts_iff_transport_fails_witness :
    (elev_init wiring io_init_fail allOn).isHalted = true ∧
    (elev_init wiring io_init_fail allOn).state.log = [] ∧
    (elev_init wiring io_init_fail allOn).state.bits wiring.LIGHT_UP1 = true ∧
    (elev_init wiring io_init_ok allOn).isHalted = false := by
  decide

/-! ## Precondition failures -/

/-- C7: for all integers `button`, `floor`, `value`, the call
`elev_set_button_lamp(button, floor, value)` halts with an assertion failure if
and only if `floor < 0` or `floor >= 4` or `button < 0` or `button >= 3`, and
when it halts the I/O state is unchanged (no write was performed).  In
particular `elev_set_button_lamp(t, 4, 1)` halts for every `t`. -/
theorem button_lamp_halts_iff_out_of_range (c : Channels) (button floor value : Int)
    (s : IoState) :
    ((∃ s1, elev_set_button_lamp c button floor value s = Run.halted s1) ↔
      (floor < 0 ∨ floor ≥ 4 ∨ button < 0 ∨ button ≥ 3)) ∧
    (∀ s1, elev_set_button_lamp c button floor value s = Run.halted s1 → s1 = s) ∧
    (∀ t : Int, elev_set_button_lamp c t 4 1 s = Run.halted s) := by
  have key : ∀ s1, elev_set_button_lamp c button floor value s = Run.halted s1 →
      (floor < 0 ∨ floor ≥ 4 ∨ button < 0 ∨ button ≥ 3) ∧ s1 = s := by
    intro s1 hs1
    by_cases h : floor < 0 ∨ 4 ≤ floor ∨ button < 0 ∨ 3 ≤ button
    · rw [elev_set_button_lamp_out_of_range c button floor value s h] at hs1
      cases hs1
      exact ⟨h, rfl⟩
    · have hf0 : 0 ≤ floor := by omega
      have hf4 : floor < 4 := by omega
      have hb0 : 0 ≤ button := by omega
      have hb3 : button < 3 := by omega
      rw [elev_set_button_lamp_in_range c button floor value s hf0 hf4 hb0 hb3] at hs1
      split_ifs at hs1
  refine ⟨⟨?_, ?_⟩, ?_, ?_⟩
  · rintro ⟨s1, hs1⟩
    exact (key s1 hs1).1
  · intro h
    exact ⟨s, elev_set_button_lamp_out_of_range c button floor value s h⟩
  · intro s1 hs1
    exact (key s1 hs1).2
  · intro t
    exact elev_set_button_lamp_out_of_range c t 4 1 s (Or.inr (Or.inl (le_refl 4)))

/-- Concrete runs of C7: floor 4 and floor -1 halt with the log untouched,
button 3 halts, and the in-range call at floor 3, button 2 does not. -/
theorem button_lamp_halts_iff_out_of_range_witness :
    (elev_set_button_lamp wiring 0 4 1 (idle [])).isHalted = true ∧
    (elev_set_button_lamp wiring 0 4 1 (idle [])).state.log = [] ∧
    (elev_set_button_lamp wiring 0 (-1) 1 (idle [])).isHalted = true ∧
    (elev_set_button_lamp wiring 3 0 1 (idle [])).isHalted = true ∧
    (elev_set_button_lamp wiring 2 3 1 (idle [])).isHalted = false := by
  decide

/-- In range, the button query does not abort: it is a single read of the
mapped channel, normalised to 0 or 1. -/
theorem elev_get_button_signal_in_range (c : Channels) (button floor : Int)
    (s : IoState) (hf0 : 0 ≤ floor) (hf4 : floor < 4) (hb0 : 0 ≤ button)
    (hb3 : button < 3) :
    elev_get_button_signal c button floor s =
      if (io_read_bit (index2 (button_channel_matrix c) floor button) s).1 ≠ 0 then
        Run.done 1 (io_read_bit (index2 (button_channel_matrix c) floor button) s).2
      else
        Run.done 0 (io_read_bit (index2 (button_channel_matrix c) floor button) s).2 := by
  simp [elev_get_button_signal, assert, N_FLOORS, N_BUTTONS, hf0, hf4, hb0, hb3]

/-- Out of range, the button query aborts in the state it was entered in. -/
theorem elev_get_button_signal_out_of_range (c : Channels) (button floor : Int)
    (s : IoState) (h : floor < 0 ∨ 4 ≤ floor ∨ button < 0 ∨ 3 ≤ button) :
    elev_get_button_signal c button floor s = Run.halted s := by
  unfold elev_get_button_signal assert N_FLOORS N_BUTTONS
  by_cases h1 : floor ≥ 0 <;> by_cases h2 : floor < 4 <;>
    by_cases h3 : button ≥ 0 <;> by_cases h4 : button < 3 <;>
    simp [h1, h2, h3, h4]
  omega

/-- C8: for all integers `button`, `floor`, the call
`elev_get_button_signal(button, floor)` halts with an assertion failure if and
only if `floor < 0` or `floor >= 4` or `button < 0` or `button >= 3`, and when it
halts it has read no input channel (state and log are unchanged) and returned
no value.  In particular `elev_get_button_signal(3, 0)` halts. -/
theorem button_signal_halts_iff_out_of_range (c : Channels) (button floor : Int)
    (s : IoState) :
    ((∃ s1, elev_get_button_signal c button floor s = Run.halted s1) ↔
      (floor < 0 ∨ floor ≥ 4 ∨ button < 0 ∨ button ≥ 3)) ∧
    (∀ s1, elev_get_button_signal c button floor s = Run.halted s1 →
      s1 = s ∧ (elev_get_button_signal c button floor s).value = none) ∧
    elev_get_button_signal c 3 0 s = Run.halted s := by
  have key : ∀ s1, elev_get_button_signal c button floor s = Run.halted s1 →
      (floor < 0 ∨ floor ≥ 4 ∨ button < 0 ∨ button ≥ 3) ∧ s1 = s := by
    intro s1 hs1
    by_cases h : floor < 0 ∨ 4 ≤ floor ∨ button < 0 ∨ 3 ≤ button
    · rw [elev_get_button_signal_out_of_range c button floor s h] at hs1
      cases hs1
      exact ⟨h, rfl⟩
    · have hf0 : 0 ≤ floor := by omega
      have hf4 : floor < 4 := by omega
      have hb0 : 0 ≤ button := by omega
      have hb3 : button < 3 := by omega
      rw [elev_get_button_signal_in_range c button floor s hf0 hf4 hb0 hb3] at hs1
      split_ifs at hs1
  refine ⟨⟨?_, ?_⟩, ?_, ?_⟩
  · rintro ⟨s1, hs1⟩
    exact (key s1 hs1).1
  · intro h
    exact ⟨s, elev_get_button_signal_out_of_range c button floor s h⟩
  · intro s1 hs1
    refine ⟨(key s1 hs1).2, ?_⟩
    rw [hs1]
    rfl
  · exact elev_get_button_signal_out_of_range c 3 0 s (Or.inr (Or.inr (Or.inr (le_refl 3))))

/-- Concrete runs of C8: button 3 halts before any read even though every
button channel reads 1; the in-range query at button 2, floor 0 returns 1. -/
theorem button_signal_halts_iff_out_of_range_witness :
    (elev_get_button_signal wiring 3 0 (idle [21, 22, 13, 14])).isHalted = true ∧
    (elev_get_button_signal wiring 3 0 (idle [21, 22, 13, 14])).state.log = [] ∧
    (elev_get_button_signal wiring 3 0 (idle [21, 22, 13, 14])).value = none ∧
    (elev_get_button_signal wiring 0 4 (idle [21, 22, 13, 14])).isHalted = true ∧
    (elev_get_button_signal wiring 2 0 (idle [21, 22, 13, 14])).value = some 1 := by
  decide

/-! ## Button query -/

/-- C9: for every floor `f` in `[0,4)`, button type `t` in `[0,3)` and I/O state,
`elev_get_button_signal(t, f)` returns 1 when
`io_read_bit(button_channel_matrix[f][t])` is non-zero and 0 when it is zero; its
only I/O operation is that read, and no output channel changes. -/
theorem button_signal_reads_mapped_channel (c : Channels) (f t : Int) (s : IoState)
    (hf0 : 0 ≤ f) (hf4 : f < 4) (ht0 : 0 ≤ t) (ht3 : t < 3) :
    ∃ v s1, elev_get_button_signal c t f s = Run.done v s1 ∧
      ((io_read_bit (index2 (button_channel_matrix c) f t) s).1 ≠ 0 → v = 1) ∧
      ((io_read_bit (index2 (button_channel_matrix c) f t) s).1 = 0 → v = 0) ∧
      s1.log = s.log ++ [IoOp.read_bit (index2 (button_channel_matrix c) f t)] ∧
      s1.bits = s.bits ∧ s1.analog = s.analog := by
  rw [elev_get_button_signal_in_range c t f s hf0 hf4 ht0 ht3]
  by_cases h : s.inputs (index2 (button_channel_matrix c) f t) = 0
  · exact ⟨0, (io_read_bit (index2 (button_channel_matrix c) f t) s).2,
      by simp [h], by simp [h]⟩
  · exact ⟨1, (io_read_bit (index2 (button_channel_matrix c) f t) s).2,
      by simp [h], by simp [h]⟩

/-- Witness of C9 at floor 1, button `BUTTON_COMMAND`, whose input is channel
`BUTTON_COMMAND2`, pressed. -/
theorem button_signal_reads_mapped_channel_witness :
    ∃ v s1, elev_get_button_signal wiring 2 1 (idle [22]) = Run.done v s1 ∧
      ((io_read_bit (index2 (button_channel_matrix wiring) 1 2) (idle [22])).1 ≠ 0 → v = 1) ∧
      ((io_read_bit (index2 (button_channel_matrix wiring) 1 2) (idle [22])).1 = 0 → v = 0) ∧
      s1.log = (idle [22]).log ++
        [IoOp.read_bit (index2 (button_channel_matrix wiring) 1 2)] ∧
      s1.bits = (idle [22]).bits ∧ s1.analog = (idle [22]).analog :=
  button_signal_reads_mapped_channel wiring 1 2 (idle [22])
    (by decide) (by decide) (by decide) (by decide)

/-! ## The floor indicator at floor 0 -/

/-- C10 fails at floor 0: from a state with both indicator lines on,
`elev_set_floor_indicator(0)` returns with both lines off. -/
theorem floor_indicator_off_at_floor_zero :
    (elev_set_floor_indicator wiring 0 allOn).isHalted = false ∧
    (elev_set_floor_indicator wiring 0 allOn).state.log =
      [IoOp.clear_bit wiring.LIGHT_FLOOR_IND1, IoOp.clear_bit wiring.LIGHT_FLOOR_IND2] ∧
    ¬ ((elev_set_floor_indicator wiring 0 allOn).state.bits wiring.LIGHT_FLOOR_IND1 = true ∨
       (elev_set_floor_indicator wiring 0 allOn).state.bits wiring.LIGHT_FLOOR_IND2 = true) := by
  decide

/-- C10, amended: for every floor `f` in `[0,4)`, after
`elev_set_floor_indicator(f)` at least one of the two indicator lines
`LIGHT_FLOOR_IND1`, `LIGHT_FLOOR_IND2` is on exactly when `f` is not 0; at floor 0
both lines are off (the two lines being two different channels). -/
theorem floor_indicator_lit_iff_nonzero (c : Channels)
    (hAB : c.LIGHT_FLOOR_IND1 ≠ c.LIGHT_FLOOR_IND2) (f : Int) (h0 : 0 ≤ f)
    (h4 : f < 4) (s : IoState) :
    ∃ s1, elev_set_floor_indicator c f s = Run.done () s1 ∧
      ((s1.bits c.LIGHT_FLOOR_IND1 = true ∨ s1.bits c.LIGHT_FLOOR_IND2 = true) ↔ f ≠ 0) := by
  interval_cases f <;>
    simp [elev_set_floor_indicator, assert, N_FLOORS, hAB, Int.land]

/-- Witness of the amended C10 at floor 1 from the all-off state. -/
theorem floor_indicator_lit_iff_nonzero_witness :
    ∃ s1, elev_set_floor_indicator wiring 1 (idle []) = Run.done () s1 ∧
      ((s1.bits wiring.LIGHT_FLOOR_IND1 = true ∨
        s1.bits wiring.LIGHT_FLOOR_IND2 = true) ↔ (1 : Int) ≠ 0) :=
  floor_indicator_lit_iff_nonzero wiring (by decide) 1 (by decide) (by decide) (idle [])

/-! ## Floor indicator: precondition -/

/-- In range, the floor indicator call does not abort: it is one write to each
of the two indicator lines. -/
theorem elev_set_floor_indicator_in_range (c : Channels) (floor : Int) (s : IoState)
    (hf0 : 0 ≤ floor) (hf4 : floor < 4) :
    elev_set_floor_indicator c floor s =
      Run.done ()
        (if Int.land floor 1 ≠ 0 then
          io_set_bit c.LIGHT_FLOOR_IND2
            (if Int.land floor 2 ≠ 0 then io_set_bit c.LIGHT_FLOOR_IND1 s
             else io_clear_bit c.LIGHT_FLOOR_IND1 s)
         else
          io_clear_bit c.LIGHT_FLOOR_IND2
            (if Int.land floor 2 ≠ 0 then io_set_bit c.LIGHT_FLOOR_IND1 s
             else io_clear_bit c.LIGHT_FLOOR_IND1 s)) := by
  simp [elev_set_floor_indicator, assert, N_FLOORS, hf0, hf4]

/-- Out of range, the floor indicator call aborts in the state it was entered in. -/
theorem elev_set_floor_indicator_out_of_range (c : Channels) (floor : Int)
    (s : IoState) (h : floor < 0 ∨ 4 ≤ floor) :
    elev_set_floor_indicator c floor s = Run.halted s := by
  unfold elev_set_floor_indicator assert N_FLOORS
  by_cases h1 : floor ≥ 0 <;> by_cases h2 : floor < 4 <;> simp [h1, h2]
  omega

/-- C11: for every integer `floor`, `elev_set_floor_indicator(floor)` halts with
an assertion failure if and only if `floor < 0` or `floor >= 4`, and when it
halts neither indicator line has been written: the I/O state, log included, is
the one the call was entered in. -/
theorem floor_indicator_halts_iff_out_of_range (c : Channels) (floor : Int)
    (s : IoState) :
    ((∃ s1, elev_set_floor_indicator c floor s = Run.halted s1) ↔
      (floor < 0 ∨ floor ≥ 4)) ∧
    (∀ s1, elev_set_floor_indicator c floor s = Run.halted s1 → s1 = s) := by
  have key : ∀ s1, elev_set_floor_indicator c floor s = Run.halted s1 →
      (floor < 0 ∨ floor ≥ 4) ∧ s1 = s := by
    intro s1 hs1
    by_cases h : floor < 0 ∨ 4 ≤ floor
    · rw [elev_set_floor_indicator_out_of_range c floor s h] at hs1
      cases hs1
      exact ⟨h, rfl⟩
    · have hf0 : 0 ≤ floor := by omega
      have hf4 : floor < 4 := by omega
      rw [elev_set_floor_indicator_in_range c floor s hf0 hf4] at hs1
      cases hs1
  refine ⟨⟨?_, ?_⟩, ?_⟩
  · rintro ⟨s1, hs1⟩
    exact (key s1 hs1).1
  · intro h
    exact ⟨s, elev_set_floor_indicator_out_of_range c floor s h⟩
  · intro s1 hs1
    exact (key s1 hs1).2

/-- Concrete runs of C11: floors 4 and -1 halt with the log and both lines
untouched; floors 0 and 3 do not halt. -/
theorem floor_indicator_halts_iff_out_of_range_witness :
    (elev_set_floor_indicator wiring 4 allOn).isHalted = true ∧
    (elev_set_floor_indicator wiring 4 allOn).state.log = [] ∧
    (elev_set_floor_indicator wiring 4 allOn).state.bits wiring.LIGHT_FLOOR_IND1 = true ∧
    (elev_set_floor_indicator wiring 4 allOn).state.bits wiring.LIGHT_FLOOR_IND2 = true ∧
    (elev_set_floor_indicator wiring (-1) allOn).isHalted = true ∧
    (elev_set_floor_indicator wiring 0 allOn).isHalted = false ∧
    (elev_set_floor_indicator wiring 3 allOn).isHalted = false := by
  decide

/-! ## Motor: stopping -/

/-- C12: for every prior I/O state, `elev_set_motor_direction(DIRN_STOP)` leaves
the `MOTORDIR` bit and every other digital channel unchanged; its only I/O
operation is the analog write of 0 to `MOTOR`, so every other analog output and
the inputs are unchanged too. -/
theorem motor_stop_keeps_direction_bit (c : Channels) (s : IoState) :
    ∃ s1, elev_set_motor_direction c DIRN_STOP s = Run.done () s1 ∧
      issued s s1 = [IoOp.write_analog c.MOTOR 0] ∧
      s1.bits c.MOTORDIR = s.bits c.MOTORDIR ∧
      s1.bits = s.bits ∧
      s1.analog c.MOTOR = 0 ∧
      (∀ x, x ≠ c.MOTOR → s1.analog x = s.analog x) ∧
      s1.inputs = s.inputs := by
  refine ⟨io_write_analog c.MOTOR 0 s, by simp [elev_set_motor_direction, DIRN_STOP], ?_⟩
  simp [issued]
  intro x hx
  simp [hx]

/-- Concrete runs of C12: stopping after going down keeps the direction bit
set, stopping after going up keeps it cleared. -/
theorem motor_stop_keeps_direction_bit_witness :
    ((elev_set_motor_direction wiring DIRN_DOWN (idle [])).andThen fun _ s1 =>
        elev_set_motor_direction wiring DIRN_STOP s1).state.bits wiring.MOTORDIR = true ∧
    ((elev_set_motor_direction wiring DIRN_UP allOn).andThen fun _ s1 =>
        elev_set_motor_direction wiring DIRN_STOP s1).state.bits wiring.MOTORDIR = false ∧
    (elev_set_motor_direction wiring DIRN_STOP allOn).state.log =
      [IoOp.write_analog wiring.MOTOR 0] ∧
    (elev_set_motor_direction wiring DIRN_STOP allOn).state.analog wiring.MOTOR = 0 := by
  decide

/-! ## Idempotence of the output operations -/

/-- Clearing channels leaves the inputs alone. -/
theorem clearAll_inputs (chs : List Int) (s : IoState) :
    (clearAll chs s).inputs = s.inputs := by
  induction chs generalizing s with
  | nil => rfl
  | cons ch rest ih =>
    have hstep : clearAll (ch :: rest) s = clearAll rest (io_clear_bit ch s) := rfl
    rw [hstep, ih]
    rfl

/-- Setting a bit that was just set changes no line. -/
theorem sameLines_set_set (ch : Int) (s : IoState) :
    sameLines (io_set_bit ch (io_set_bit ch s)) (io_set_bit ch s) := by
  refine ⟨?_, rfl, rfl⟩
  funext x
  by_cases h : x = ch <;> simp [h]

/-- Clearing a bit that was just cleared changes no line. -/
theorem sameLines_clear_clear (ch : Int) (s : IoState) :
    sameLines (io_clear_bit ch (io_clear_bit ch s)) (io_clear_bit ch s) := by
  refine ⟨?_, rfl, rfl⟩
  funext x
  by_cases h : x = ch <;> simp [h]

/-- Running a returning operation twice is running it on the state it left. -/
theorem twice_of_done (op : IoState → Run Unit) (s s1 : IoState)
    (h : op s = Run.done () s1) : twice op s = op s1 := by
  simp [twice, h, Run.andThen]

/-- Idempotence of the motor command, for every integer direction. -/
theorem motor_direction_twice (c : Channels) (d : Int) (s : IoState) :
    ∃ s1 s2, elev_set_motor_direction c d s = Run.done () s1 ∧
      twice (elev_set_motor_direction c d) s = Run.done () s2 ∧ sameLines s2 s1 := by
  rcases lt_trichotomy d 0 with h | h | h
  · have hne : d ≠ 0 := by omega
    have hnp : ¬ d > 0 := by omega
    refine ⟨_, _, by simp only [elev_set_motor_direction, hne, hnp, h, if_true, if_false]; rfl,
      by simp only [twice, elev_set_motor_direction, hne, hnp, h, if_true, if_false,
        Run.andThen]; rfl, ?_⟩
    refine ⟨?_, ?_, rfl⟩
    · funext x
      by_cases hx : x = c.MOTORDIR <;> simp [hx]
    · funext x
      by_cases hx : x = c.MOTOR <;> simp [hx]
  · subst h
    refine ⟨_, _, by simp only [elev_set_motor_direction, if_true]; rfl,
      by simp only [twice, elev_set_motor_direction, if_true, Run.andThen]; rfl, ?_⟩
    refine ⟨rfl, ?_, rfl⟩
    funext x
    by_cases hx : x = c.MOTOR <;> simp [hx]
  · have hne : d ≠ 0 := by omega
    have hp : d > 0 := h
    refine ⟨_, _, by simp only [elev_set_motor_direction, hne, hp, if_true, if_false]; rfl,
      by simp only [twice, elev_set_motor_direction, hne, hp, if_true, if_false,
        Run.andThen]; rfl, ?_⟩
    refine ⟨?_, ?_, rfl⟩
    · funext x
      by_cases hx : x = c.MOTORDIR <;> simp [hx]
    · funext x
      by_cases hx : x = c.MOTOR <;> simp [hx]

/-- Idempotence of the floor indicator, for every floor in range; the two
lines need not be different channels. -/
theorem floor_indicator_twice (c : Channels) (f : Int) (s : IoState)
    (hf0 : 0 ≤ f) (hf4 : f < 4) :
    ∃ s1 s2, elev_set_floor_indicator c f s = Run.done () s1 ∧
      twice (elev_set_floor_indicator c f) s = Run.done () s2 ∧ sameLines s2 s1 := by
  refine ⟨_, _, elev_set_floor_indicator_in_range c f s hf0 hf4,
    (twice_of_done _ s _ (elev_set_floor_indicator_in_range c f s hf0 hf4)).trans
      (elev_set_floor_indicator_in_range c f _ hf0 hf4), ?_⟩
  interval_cases f <;> simp [Int.land] <;> refine ⟨?_, rfl, rfl⟩ <;> funext x <;>
    by_cases h1 : x = c.LIGHT_FLOOR_IND1 <;> by_cases h2 : x = c.LIGHT_FLOOR_IND2 <;>
    simp [h1, h2]

/-- Idempotence of the button lamp command, for every floor and button in
range and every value. -/
theorem button_lamp_twice (c : Channels) (t f v : Int) (s : IoState)
    (hf0 : 0 ≤ f) (hf4 : f < 4) (ht0 : 0 ≤ t) (ht3 : t < 3) :
    ∃ s1 s2, elev_set_button_lamp c t f v s = Run.done () s1 ∧
      twice (elev_set_button_lamp c t f v) s = Run.done () s2 ∧ sameLines s2 s1 := by
  by_cases hv : v = 0
  · have e : ∀ u, elev_set_button_lamp c t f v u =
        Run.done () (io_clear_bit (index2 (lamp_channel_matrix c) f t) u) := by
      intro u
      rw [elev_set_button_lamp_in_range c t f v u hf0 hf4 ht0 ht3]
      simp [hv]
    exact ⟨_, _, e s, (twice_of_done _ s _ (e s)).trans (e _), sameLines_clear_clear _ s⟩
  · have e : ∀ u, elev_set_button_lamp c t f v u =
        Run.done () (io_set_bit (index2 (lamp_channel_matrix c) f t) u) := by
      intro u
      rw [elev_set_button_lamp_in_range c t f v u hf0 hf4 ht0 ht3]
      simp [hv]
    exact ⟨_, _, e s, (twice_of_done _ s _ (e s)).trans (e _), sameLines_set_set _ s⟩

/-- Idempotence of the door-open lamp command, for every value. -/
theorem door_open_lamp_twice (c : Channels) (v : Int) (s : IoState) :
    ∃ s1 s2, elev_set_door_open_lamp c v s = Run.done () s1 ∧
      twice (elev_set_door_open_lamp c v) s = Run.done () s2 ∧ sameLines s2 s1 := by
  by_cases hv : v = 0
  · have e : ∀ u, elev_set_door_open_lamp c v u =
        Run.done () (io_clear_bit c.LIGHT_DOOR_OPEN u) := by
      intro u
      simp [elev_set_door_open_lamp, hv]
    exact ⟨_, _, e s, (twice_of_done _ s _ (e s)).trans (e _), sameLines_clear_clear _ s⟩
  · have e : ∀ u, elev_set_door_open_lamp c v u =
        Run.done () (io_set_bit c.LIGHT_DOOR_OPEN u) := by
      intro u
      simp [elev_set_door_open_lamp, hv]
    exact ⟨_, _, e s, (twice_of_done _ s _ (e s)).trans (e _), sameLines_set_set _ s⟩

/-- Idempotence of the stop lamp command, for every value. -/
theorem stop_lamp_twice (c : Channels) (v : Int) (s : IoState) :
    ∃ s1 s2, elev_set_stop_lamp c v s = Run.done () s1 ∧
      twice (elev_set_stop_lamp c v) s = Run.done () s2 ∧ sameLines s2 s1 := by
  by_cases hv : v = 0
  · have e : ∀ u, elev_set_stop_lamp c v u =
        Run.done () (io_clear_bit c.LIGHT_STOP u) := by
      intro u
      simp [elev_set_stop_lamp, hv]
    exact ⟨_, _, e s, (twice_of_done _ s _ (e s)).trans (e _), sameLines_clear_clear _ s⟩
  · have e : ∀ u, elev_set_stop_lamp c v u =
        Run.done () (io_set_bit c.LIGHT_STOP u) := by
      intro u
      simp [elev_set_stop_lamp, hv]
    exact ⟨_, _, e s, (twice_of_done _ s _ (e s)).trans (e _), sameLines_set_set _ s⟩

/-- Idempotence of `elev_init`, when `io_init` succeeds both times and the
repeated `io_init` writes no line. -/
theorem elev_init_twice (c : Channels) (io_init : IoState → Int × IoState)
    (s : IoState) (h1 : (io_init s).1 ≠ 0)
    (h2 : (io_init (elev_init c io_init s).state).1 ≠ 0)
    (hq : sameLines (io_init (elev_init c io_init s).state).2 (elev_init c io_init s).state) :
    ∃ s1 s2, elev_init c io_init s = Run.done () s1 ∧
      twice (elev_init c io_init) s = Run.done () s2 ∧ sameLines s2 s1 := by
  have e1 := elev_init_success c io_init s h1
  rw [e1] at h2 hq
  simp only [Run.state] at h2 hq
  have e2 := elev_init_success c io_init _ h2
  refine ⟨_, _, e1, (twice_of_done _ s _ e1).trans e2, ?_⟩
  obtain ⟨qb, qa, qi⟩ := hq
  refine ⟨?_, ?_, ?_⟩
  · funext x
    rw [clearAll_bits, qb, clearAll_bits]
    by_cases hx : x ∈ init_channels c <;> simp [hx]
  · rw [clearAll_analog, qa]
  · rw [clearAll_inputs, qi]

/-- C13: every output operation is idempotent.  For each of
`elev_set_motor_direction(d)`, `elev_set_button_lamp(t, f, v)`,
`elev_set_floor_indicator(f)`, `elev_set_door_open_lamp(v)`,
`elev_set_stop_lamp(v)` and `elev_init` (with `io_init` succeeding, the repeated
`io_init` writing no line), for every argument in range and every prior I/O
state, the operation returns, performing it twice in a row returns too, and
both leave the same digital outputs, analog outputs and inputs. -/
theorem output_operations_idempotent (c : Channels) (s : IoState) :
    (∀ d : Int, ∃ s1 s2, elev_set_motor_direction c d s = Run.done () s1 ∧
      twice (elev_set_motor_direction c d) s = Run.done () s2 ∧ sameLines s2 s1) ∧
    (∀ t f v : Int, 0 ≤ f → f < 4 → 0 ≤ t → t < 3 →
      ∃ s1 s2, elev_set_button_lamp c t f v s = Run.done () s1 ∧
        twice (elev_set_button_lamp c t f v) s = Run.done () s2 ∧ sameLines s2 s1) ∧
    (∀ f : Int, 0 ≤ f → f < 4 →
      ∃ s1 s2, elev_set_floor_indicator c f s = Run.done () s1 ∧
        twice (elev_set_floor_indicator c f) s = Run.done () s2 ∧ sameLines s2 s1) ∧
    (∀ v : Int, ∃ s1 s2, elev_set_door_open_lamp c v s = Run.done () s1 ∧
      twice (elev_set_door_open_lamp c v) s = Run.done () s2 ∧ sameLines s2 s1) ∧
    (∀ v : Int, ∃ s1 s2, elev_set_stop_lamp c v s = Run.done () s1 ∧
      twice (elev_set_stop_lamp c v) s = Run.done () s2 ∧ sameLines s2 s1) ∧
    (∀ io_init : IoState → Int × IoState, (io_init s).1 ≠ 0 →
      (io_init (elev_init c io_init s).state).1 ≠ 0 →
      sameLines (io_init (elev_init c io_init s).state).2 (elev_init c io_init s).state →
      ∃ s1 s2, elev_init c io_init s = Run.done () s1 ∧
        twice (elev_init c io_init) s = Run.done () s2 ∧ sameLines s2 s1) :=
  ⟨fun d => motor_direction_twice c d s,
   fun t f v hf0 hf4 ht0 ht3 => button_lamp_twice c t f v s hf0 hf4 ht0 ht3,
   fun f hf0 hf4 => floor_indicator_twice c f s hf0 hf4,
   fun v => door_open_lamp_twice c v s,
   fun v => stop_lamp_twice c v s,
   fun io_init h1 h2 hq => elev_init_twice c io_init s h1 h2 hq⟩

/-- Witness of C13 on the concrete wiring from the all-on state: the in-range
button lamp call (button 2, floor 3, value 1), the floor indicator at floor 2
and `elev_init` over a transport that comes up without writing. -/
theorem output_operations_idempotent_witness :
    (∃ s1 s2, elev_set_button_lamp wiring 2 3 1 allOn = Run.done () s1 ∧
      twice (elev_set_button_lamp wiring 2 3 1) allOn = Run.done () s2 ∧ sameLines s2 s1) ∧
    (∃ s1 s2, elev_set_floor_indicator wiring 2 allOn = Run.done () s1 ∧
      twice (elev_set_floor_indicator wiring 2) allOn = Run.done () s2 ∧ sameLines s2 s1) ∧
    (∃ s1 s2, elev_init wiring io_init_ok allOn = Run.done () s1 ∧
      twice (elev_init wiring io_init_ok) allOn = Run.done () s2 ∧ sameLines s2 s1) :=
  ⟨(output_operations_idempotent wiring allOn).2.1 2 3 1
      (by decide) (by decide) (by decide) (by decide),
   (output_operations_idempotent wiring allOn).2.2.1 2 (by decide) (by decide),
   (output_operations_idempotent wiring allOn).2.2.2.2.2 io_init_ok
      (by decide) (by decide) ⟨rfl, rfl, rfl⟩⟩

/-! ## Injectivity of the floor encoding -/

/-- C14: the floor-indicator encoding is injective on valid floors.  For all
`f`, `g` in `[0,4)` and all prior states, both calls return, and if the pair of
line states (`LIGHT_FLOOR_IND1`, `LIGHT_FLOOR_IND2`) after
`elev_set_floor_indicator(f)` equals the pair after
`elev_set_floor_indicator(g)`, then `f = g` (the two lines being two different
channels). -/
theorem floor_indicator_injective (c : Channels)
    (hAB : c.LIGHT_FLOOR_IND1 ≠ c.LIGHT_FLOOR_IND2) (f g : Int)
    (hf0 : 0 ≤ f) (hf4 : f < 4) (hg0 : 0 ≤ g) (hg4 : g < 4) (s u : IoState) :
    ∃ sf sg, elev_set_floor_indicator c f s = Run.done () sf ∧
      elev_set_floor_indicator c g u = Run.done () sg ∧
      ((sf.bits c.LIGHT_FLOOR_IND1, sf.bits c.LIGHT_FLOOR_IND2) =
          (sg.bits c.LIGHT_FLOOR_IND1, sg.bits c.LIGHT_FLOOR_IND2) → f = g) := by
  refine ⟨_, _, elev_set_floor_indicator_in_range c f s hf0 hf4,
    elev_set_floor_indicator_in_range c g u hg0 hg4, ?_⟩
  interval_cases f <;> interval_cases g <;> simp [Int.land, hAB]

/-- Witness of C14 at floors 1 and 2 from two different prior states: the
patterns differ, so the implication holds there with a false premise. -/
theorem floor_indicator_injective_witness :
    ∃ sf sg, elev_set_floor_indicator wiring 1 allOn = Run.done () sf ∧
      elev_set_floor_indicator wiring 2 (idle []) = Run.done () sg ∧
      ((sf.bits wiring.LIGHT_FLOOR_IND1, sf.bits wiring.LIGHT_FLOOR_IND2) =
          (sg.bits wiring.LIGHT_FLOOR_IND1, sg.bits wiring.LIGHT_FLOOR_IND2) →
        (1 : Int) = 2) :=
  floor_indicator_injective wiring (by decide) 1 2
    (by decide) (by decide) (by decide) (by decide) allOn (idle [])

/-! ## Door-open and stop lamps -/

/-- C15: for every integer `value` and every prior I/O state,
`elev_set_door_open_lamp(value)` returns after exactly one I/O operation, on
`LIGHT_DOOR_OPEN` (`set_bit` if `value != 0`, `clear_bit` if `value == 0`), and
`elev_set_stop_lamp(value)` returns after exactly one I/O operation, on
`LIGHT_STOP` (likewise); neither ever fails and neither changes any other
digital channel, any analog output or any input. -/
theorem door_and_stop_lamp_single_write (c : Channels) (value : Int) (s : IoState) :
    (∃ s1, elev_set_door_open_lamp c value s = Run.done () s1 ∧
      issued s s1 =
        [if value ≠ 0 then IoOp.set_bit c.LIGHT_DOOR_OPEN
         else IoOp.clear_bit c.LIGHT_DOOR_OPEN] ∧
      s1.bits c.LIGHT_DOOR_OPEN = decide (value ≠ 0) ∧
      (∀ x, x ≠ c.LIGHT_DOOR_OPEN → s1.bits x = s.bits x) ∧
      s1.analog = s.analog ∧ s1.inputs = s.inputs) ∧
    (∃ s1, elev_set_stop_lamp c value s = Run.done () s1 ∧
      issued s s1 =
        [if value ≠ 0 then IoOp.set_bit c.LIGHT_STOP else IoOp.clear_bit c.LIGHT_STOP] ∧
      s1.bits c.LIGHT_STOP = decide (value ≠ 0) ∧
      (∀ x, x ≠ c.LIGHT_STOP → s1.bits x = s.bits x) ∧
      s1.analog = s.analog ∧ s1.inputs = s.inputs) := by
  by_cases hv : value = 0
  · refine ⟨⟨io_clear_bit c.LIGHT_DOOR_OPEN s, by simp [elev_set_door_open_lamp, hv], ?_⟩,
      ⟨io_clear_bit c.LIGHT_STOP s, by simp [elev_set_stop_lamp, hv], ?_⟩⟩ <;>
    · simp [issued, hv]
      intro x hx
      simp [hx]
  · refine ⟨⟨io_set_bit c.LIGHT_DOOR_OPEN s, by simp [elev_set_door_open_lamp, hv], ?_⟩,
      ⟨io_set_bit c.LIGHT_STOP s, by simp [elev_set_stop_lamp, hv], ?_⟩⟩ <;>
    · simp [issued, hv]
      intro x hx
      simp [hx]

/-- Concrete runs of C15: a negative value switches the door-open lamp on with
one `set_bit`, value 0 switches the stop lamp off with one `clear_bit`, and
the other lamp keeps its state. -/
theorem door_and_stop_lamp_single_write_witness :
    (elev_set_door_open_lamp wiring (-7) (idle [])).isHalted = false ∧
    (elev_set_door_open_lamp wiring (-7) (idle [])).state.log =
      [IoOp.set_bit wiring.LIGHT_DOOR_OPEN] ∧
    (elev_set_door_open_lamp wiring (-7) (idle [])).state.bits wiring.LIGHT_DOOR_OPEN = true ∧
    (elev_set_door_open_lamp wiring (-7) (idle [])).state.bits wiring.LIGHT_STOP = false ∧
    (elev_set_stop_lamp wiring 0 allOn).isHalted = false ∧
    (elev_set_stop_lamp wiring 0 allOn).state.log = [IoOp.clear_bit wiring.LIGHT_STOP] ∧
    (elev_set_stop_lamp wiring 0 allOn).state.bits wiring.LIGHT_STOP = false ∧
    (elev_set_stop_lamp wiring 0 allOn).state.bits wiring.LIGHT_DOOR_OPEN = true := by
  decide

/-! ## What `elev_init` issues -/

/-- C16: `elev_init` never commands the motor.  When `io_init` succeeds, the I/O
operations `elev_init` issues after it are exactly 16 `clear_bit` operations, in
this order: `lamp_channel_matrix[f][b]` for `f = 0..3` (outer) and `b = 0..2`
(inner), then `LIGHT_STOP`, `LIGHT_DOOR_OPEN`, `LIGHT_FLOOR_IND1`,
`LIGHT_FLOOR_IND2`.  None is a `set_bit` or an analog write, so every analog
output is as `io_init` left it, and the magnitude on `MOTOR` equals its value
before the call whenever `io_init` itself did not change it. -/
theorem init_issues_sixteen_clears (c : Channels) (io_init : IoState → Int × IoState)
    (s : IoState) (h : (io_init s).1 ≠ 0) :
    ∃ s1, elev_init c io_init s = Run.done () s1 ∧
      issued (io_init s).2 s1 =
        ((lamp_channel_matrix c).flatten ++
          [c.LIGHT_STOP, c.LIGHT_DOOR_OPEN, c.LIGHT_FLOOR_IND1, c.LIGHT_FLOOR_IND2]).map
          IoOp.clear_bit ∧
      (issued (io_init s).2 s1).length = 16 ∧
      (∀ op, op ∈ issued (io_init s).2 s1 → ∃ ch, op = IoOp.clear_bit ch) ∧
      s1.analog = (io_init s).2.analog ∧
      ((io_init s).2.analog c.MOTOR = s.analog c.MOTOR →
        s1.analog c.MOTOR = s.analog c.MOTOR) := by
  have hlog : issued (io_init s).2 (clearAll (init_channels c) (io_init s).2) =
      (init_channels c).map IoOp.clear_bit := by
    simp [issued, clearAll_log]
  refine ⟨_, elev_init_success c io_init s h, ?_, ?_, ?_, ?_, ?_⟩
  · rw [hlog]
    rfl
  · rw [hlog]
    rfl
  · intro op hop
    rw [hlog] at hop
    obtain ⟨ch, _, hch⟩ := List.mem_map.mp hop
    exact ⟨ch, hch.symm⟩
  · exact clearAll_analog _ _
  · intro hm
    rw [clearAll_analog, hm]

/-- Witness of C16: initialisation on the concrete wiring with the motor
running beforehand. -/
theorem init_issues_sixteen_clears_witness :
    ∃ s1, elev_init wiring io_init_ok allOn = Run.done () s1 ∧
      issued (io_init_ok allOn).2 s1 =
        ((lamp_channel_matrix wiring).flatten ++
          [wiring.LIGHT_STOP, wiring.LIGHT_DOOR_OPEN, wiring.LIGHT_FLOOR_IND1,
            wiring.LIGHT_FLOOR_IND2]).map IoOp.clear_bit ∧
      (issued (io_init_ok allOn).2 s1).length = 16 ∧
      (∀ op, op ∈ issued (io_init_ok allOn).2 s1 → ∃ ch, op = IoOp.clear_bit ch) ∧
      s1.analog = (io_init_ok allOn).2.analog ∧
      ((io_init_ok allOn).2.analog wiring.MOTOR = allOn.analog wiring.MOTOR →
        s1.analog wiring.MOTOR = allOn.analog wiring.MOTOR) :=
  init_issues_sixteen_clears wiring io_init_ok allOn (by decide)

/-! ## Motor: every integer direction -/

/-- C17: `elev_set_motor_direction` is total on all integers and depends only on
the sign of its argument.  For every `d > 0` it has the same effect as `DIRN_UP`
(clear `MOTORDIR`, write 2800), for every `d < 0` the same effect as `DIRN_DOWN`
(set `MOTORDIR`, write 2800), and for `d = 0` it writes 0; it never fails, and
every analog write it issues is to `MOTOR` with value 0 or 2800. -/
theorem motor_direction_depends_on_sign (c : Channels) (d : Int) (s : IoState) :
    (d > 0 → elev_set_motor_direction c d s = elev_set_motor_direction c DIRN_UP s ∧
      issued s (elev_set_motor_direction c d s).state =
        [IoOp.clear_bit c.MOTORDIR, IoOp.write_analog c.MOTOR 2800]) ∧
    (d < 0 → elev_set_motor_direction c d s = elev_set_motor_direction c DIRN_DOWN s ∧
      issued s (elev_set_motor_direction c d s).state =
        [IoOp.set_bit c.MOTORDIR, IoOp.write_analog c.MOTOR 2800]) ∧
    (d = 0 → elev_set_motor_direction c d s = elev_set_motor_direction c DIRN_STOP s ∧
      issued s (elev_set_motor_direction c d s).state = [IoOp.write_analog c.MOTOR 0]) ∧
    (elev_set_motor_direction c d s).isHalted = false ∧
    (∀ ch v, IoOp.write_analog ch v ∈ issued s (elev_set_motor_direction c d s).state →
      ch = c.MOTOR ∧ (v = 0 ∨ v = 2800)) := by
  rcases lt_trichotomy d 0 with h | h | h
  · have hne : d ≠ 0 := by omega
    have hnp : ¬ d > 0 := by omega
    simp [elev_set_motor_direction, hne, hnp, h, DIRN_DOWN, DIRN_UP, DIRN_STOP, MOTOR_SPEED,
      Run.state, Run.isHalted, issued]
  · subst h
    simp [elev_set_motor_direction, DIRN_STOP, Run.state, Run.isHalted, issued]
  · have hne : d ≠ 0 := by omega
    have hnn : ¬ d < 0 := by omega
    simp [elev_set_motor_direction, hne, hnn, h, DIRN_DOWN, DIRN_UP, DIRN_STOP, MOTOR_SPEED,
      Run.state, Run.isHalted, issued]

/-- Concrete runs of C17: directions 5 and -300 act as up and down. -/
theorem motor_direction_depends_on_sign_witness :
    (elev_set_motor_direction wiring 5 allOn).isHalted = false ∧
    (elev_set_motor_direction wiring 5 allOn).state.log =
      [IoOp.clear_bit wiring.MOTORDIR, IoOp.write_analog wiring.MOTOR 2800] ∧
    (elev_set_motor_direction wiring 5 allOn).state.bits wiring.MOTORDIR = false ∧
    (elev_set_motor_direction wiring (-300) (idle [])).isHalted = false ∧
    (elev_set_motor_direction wiring (-300) (idle [])).state.log =
      [IoOp.set_bit wiring.MOTORDIR, IoOp.write_analog wiring.MOTOR 2800] ∧
    (elev_set_motor_direction wiring (-300) (idle [])).state.bits wiring.MOTORDIR = true ∧
    (elev_set_motor_direction wiring (-300) (idle [])).state.analog wiring.MOTOR = 2800 := by
  decide

/-! ## Button lamps: the value as a truth value -/

/-- C18: `elev_set_button_lamp` interprets its value argument as a C truth
value.  For every floor `f` in `[0,4)`, button type `t` in `[0,3)`, integer
`v != 0` (negative ones included) and prior I/O state,
`elev_set_button_lamp(t, f, v)` returns and leaves the same I/O state, log
included, as `elev_set_button_lamp(t, f, 1)`: the mapped channel set. -/
theorem button_lamp_value_is_truth_value (c : Channels) (f t v : Int) (s : IoState)
    (hf0 : 0 ≤ f) (hf4 : f < 4) (ht0 : 0 ≤ t) (ht3 : t < 3) (hv : v ≠ 0) :
    elev_set_button_lamp c t f v s = elev_set_button_lamp c t f 1 s ∧
    elev_set_button_lamp c t f v s =
      Run.done () (io_set_bit (index2 (lamp_channel_matrix c) f t) s) := by
  rw [elev_set_button_lamp_in_range c t f v s hf0 hf4 ht0 ht3,
    elev_set_button_lamp_in_range c t f 1 s hf0 hf4 ht0 ht3]
  simp [hv]

/-- Witness of C18 at floor 0, button `BUTTON_COMMAND`, value -1. -/
theorem button_lamp_value_is_truth_value_witness :
    elev_set_button_lamp wiring 2 0 (-1) (idle []) =
        elev_set_button_lamp wiring 2 0 1 (idle []) ∧
      elev_set_button_lamp wiring 2 0 (-1) (idle []) =
        Run.done () (io_set_bit (index2 (lamp_channel_matrix wiring) 0 2) (idle [])) :=
  button_lamp_value_is_truth_value wiring 0 2 (-1) (idle [])
    (by decide) (by decide) (by decide) (by decide) (by decide)

end Elev
